import Mathlib

/-!
Verification of the nullable-foreign-key union encoding demo
(`src/prisma/schema.prisma`, its SQL migration, and `src/usage.ts`).

The raw (storage-level) record types generated by the client from
`schema.prisma` are embedded in the `Prisma` namespace; the tagged
domain types (`Country`, `City`, `Place`) and the reconstruction
function `transformPlaceUnion` are embedded from `src/usage.ts`.
The database itself is modelled as an in-memory store (`DB`) against
which the creation calls and the `findFirst` lookup of `usage.ts` are
interpreted; the SQL migration's divergent column typing and its
`ON DELETE SET NULL` behaviour are modelled separately in the `Sql`
namespace.
-/

namespace Prisma

/-- Raw `Country` row: `model Country { id Int @id; name String @unique }`
(the relation lists are not scalar columns). -/
structure Country where
  id : Int
  name : String
deriving Repr, DecidableEq

/-- Raw `City` row: `model City { id Int @id; name String @unique;
country Country @relation(fields: [countryId], references: [id]);
countryId Int }`. -/
structure City where
  id : Int
  name : String
  countryId : Int
deriving Repr, DecidableEq

/-- Raw `Place` row: `model Place { id Int @id; cityId Int?; countryId Int? }`. -/
structure Place where
  id : Int
  cityId : Option Int
  countryId : Option Int
deriving Repr, DecidableEq

end Prisma

/-- The `city` relation as fetched with `include: { country: true }`:
`Prisma.City & { country: Prisma.Country }` from `usage.ts`. -/
structure CityInclude extends Prisma.City where
  country : Prisma.Country
deriving Repr, DecidableEq

/-- The payload of the raw query result type in `usage.ts`:
`Prisma.Place & { country: Prisma.Country | null;
city: (Prisma.City & { country: Prisma.Country }) | null }`. -/
structure PlaceResultRec extends Prisma.Place where
  country : Option Prisma.Country
  city : Option CityInclude
deriving Repr, DecidableEq

/-- `type PlaceResult = (...) | null` from `usage.ts`. -/
abbrev PlaceResult := Option PlaceResultRec

/-- `type Country = Prisma.Country & { type: 'country' }`: the tagged
country value.  The constant discriminator field `type: 'country'` is
represented by the type itself (and, inside the union, by the
`Place.country` constructor); the remaining fields are the spread of
the raw record.  Note this type has no nested relation field. -/
structure Country where
  id : Int
  name : String
deriving Repr, DecidableEq

/-- `type City = Prisma.City & { type: 'city', country: Country }`:
the tagged city value carrying its tagged owning country. -/
structure City where
  id : Int
  name : String
  countryId : Int
  country : Country
deriving Repr, DecidableEq

/-- `type Place = City | Country`: the discriminated union.  The
constructor plays the role of the `type` literal field. -/
inductive Place where
  | city : City → Place
  | country : Country → Place
deriving Repr, DecidableEq

/-- The runtime discriminator, i.e. reading the `type` field of a
`Place` value. -/
def Place.discriminator : Place → String
  | .city _ => "city"
  | .country _ => "country"

/-- `{ type: 'country', ...c }`: tag a raw country record. -/
def tagCountry (c : Prisma.Country) : Country :=
  { id := c.id, name := c.name }

/-- `{ ...cw, type: 'city', country: { type: 'country', ...cw.country } }`:
tag a fetched city (with its included country). -/
def tagCity (cw : CityInclude) : City :=
  { id := cw.id, name := cw.name, countryId := cw.countryId
    country := tagCountry cw.country }

/-- `transformPlaceUnion` from `src/usage.ts`: if `result?.city` is
present, return the city spread with `type: 'city'` and the tagged
nested country; else if `result?.country` is present, return it spread
with `type: 'country'`; else return `null`. -/
def transformPlaceUnion (result : PlaceResult) : Option Place :=
  match result with
  | none => none
  | some r =>
    match r.city with
    | some cw => some (Place.city (tagCity cw))
    | none =>
      match r.country with
      | some c => some (Place.country (tagCountry c))
      | none => none

/-- In-memory model of the relational store described by
`schema.prisma`, at the application-level typing (`City.countryId`
mandatory).  The `next*` counters model the `autoincrement()` id
sequences of the three `@id` columns. -/
structure DB where
  countries : List Prisma.Country
  cities : List Prisma.City
  places : List Prisma.Place
  nextCountryId : Int
  nextCityId : Int
  nextPlaceId : Int

/-- The freshly migrated, empty database (serial sequences start at 1). -/
def DB.empty : DB := ⟨[], [], [], 1, 1, 1⟩

/-- `prisma.place.create({ data: { city: { create: { name: cityName,
country: { create: { name: countryName } } } } } })` from `usage.ts`:
inserts a new country, a new city owned by it, and a new place
referencing the city (its own `countryId` left null); returns the new
state and the created place's id. -/
def createPlaceWithCity (db : DB) (cityName countryName : String) : DB × Int :=
  ({ countries := db.countries ++ [⟨db.nextCountryId, countryName⟩],
     cities := db.cities ++ [⟨db.nextCityId, cityName, db.nextCountryId⟩],
     places := db.places ++ [⟨db.nextPlaceId, some db.nextCityId, none⟩],
     nextCountryId := db.nextCountryId + 1,
     nextCityId := db.nextCityId + 1,
     nextPlaceId := db.nextPlaceId + 1 }, db.nextPlaceId)

/-- `prisma.place.create({ data: { country: { create: { name } } } })`
from `usage.ts`: inserts a new country and a new place referencing it
directly (its `cityId` left null). -/
def createPlaceWithCountry (db : DB) (countryName : String) : DB × Int :=
  ({ countries := db.countries ++ [⟨db.nextCountryId, countryName⟩],
     cities := db.cities,
     places := db.places ++ [⟨db.nextPlaceId, none, some db.nextCountryId⟩],
     nextCountryId := db.nextCountryId + 1,
     nextCityId := db.nextCityId,
     nextPlaceId := db.nextPlaceId + 1 }, db.nextPlaceId)

/-- `prisma.place.findFirst({ where: { id }, include: { city: { include:
{ country: true } }, country: true } })` from `usage.ts`: the first
place row with the given id, with both nullable relations (and the
city's mandatory country) resolved against the store. -/
def findFirstPlace (db : DB) (id : Int) : PlaceResult :=
  (db.places.find? (fun p => p.id == id)).map (fun p =>
    { toPlace := p,
      country := p.countryId.bind (fun cid =>
        db.countries.find? (fun c => c.id == cid)),
      city := p.cityId.bind (fun cid =>
        (db.cities.find? (fun c => c.id == cid)).bind (fun c =>
          (db.countries.find? (fun co => co.id == c.countryId)).map (fun co =>
            { toCity := c, country := co }))) })

/-- `find` from `src/usage.ts`: fetch the raw record, then reconstruct
the tagged union. -/
def find (db : DB) (id : Int) : Option Place :=
  transformPlaceUnion (findFirstPlace db id)

/-- Store well-formedness: every stored id is below its sequence
counter (what the serial id sequences guarantee). -/
def DB.WF (db : DB) : Prop :=
  (∀ p ∈ db.places, p.id < db.nextPlaceId) ∧
  (∀ c ∈ db.cities, c.id < db.nextCityId) ∧
  (∀ c ∈ db.countries, c.id < db.nextCountryId)

namespace Sql

/-- `"City"` table row as created by the migration: unlike
`schema.prisma`, the column `"countryId" INTEGER` carries no NOT NULL
constraint, so it is nullable. -/
structure CityRow where
  id : Int
  name : String
  countryId : Option Int
deriving Repr, DecidableEq

/-- `"Country"` table row from the migration. -/
structure CountryRow where
  id : Int
  name : String
deriving Repr, DecidableEq

/-- `"Place"` table row from the migration. -/
structure PlaceRow where
  id : Int
  cityId : Option Int
  countryId : Option Int
deriving Repr, DecidableEq

/-- The three tables created by the migration. -/
structure State where
  countries : List CountryRow
  cities : List CityRow
  places : List PlaceRow
deriving Repr, DecidableEq

/-- Deleting a `"Country"` row under the migration's foreign keys
`City_countryId_fkey` and `Place_countryId_fkey`, both declared
`ON DELETE SET NULL`: referencing rows survive with their `countryId`
set to NULL. -/
def deleteCountry (s : State) (cid : Int) : State :=
  { countries := s.countries.filter (fun c => !(c.id == cid)),
    cities := s.cities.map (fun c =>
      if c.countryId == some cid then { c with countryId := none } else c),
    places := s.places.map (fun p =>
      if p.countryId == some cid then { p with countryId := none } else p) }

end Sql

/-- Whether `City.countryId` is declared optional in `schema.prisma`:
the field reads `countryId Int` (no `?`), i.e. it is mandatory. -/
def schemaCityCountryIdOptional : Bool := false

/-- Whether the migration declares the `"City"."countryId"` column
nullable: `"countryId" INTEGER` carries no NOT NULL, i.e. it is. -/
def migrationCityCountryIdNullable : Bool := true

/-- Looking up the place just created by the nested city-with-country
creation path returns the tagged city value built from the fresh rows. -/
theorem find_createPlaceWithCity (db : DB) (hwf : db.WF) (cn con : String) :
    find (createPlaceWithCity db cn con).1 (createPlaceWithCity db cn con).2 =
      some (Place.city ⟨db.nextCityId, cn, db.nextCountryId,
        ⟨db.nextCountryId, con⟩⟩) := by
  obtain ⟨hp, hc, hco⟩ := hwf
  have hfp : List.find? (fun p => p.id == db.nextPlaceId) db.places = none := by
    rw [List.find?_eq_none]
    intro x hx
    simpa using Int.ne_of_lt (hp x hx)
  have hfc : List.find? (fun c => c.id == db.nextCityId) db.cities = none := by
    rw [List.find?_eq_none]
    intro x hx
    simpa using Int.ne_of_lt (hc x hx)
  have hfco : List.find? (fun co => co.id == db.nextCountryId)
      db.countries = none := by
    rw [List.find?_eq_none]
    intro x hx
    simpa using Int.ne_of_lt (hco x hx)
  simp [find, findFirstPlace, createPlaceWithCity, List.find?_append,
    hfp, hfc, hfco, transformPlaceUnion, tagCity, tagCountry]

/-- Looking up the place just created by the nested country creation
path returns the tagged country value built from the fresh rows. -/
theorem find_createPlaceWithCountry (db : DB) (hwf : db.WF) (con : String) :
    find (createPlaceWithCountry db con).1 (createPlaceWithCountry db con).2 =
      some (Place.country { id := db.nextCountryId, name := con }) := by
  obtain ⟨hp, _, hco⟩ := hwf
  have hfp : List.find? (fun p => p.id == db.nextPlaceId) db.places = none := by
    rw [List.find?_eq_none]
    intro x hx
    simpa using Int.ne_of_lt (hp x hx)
  have hfco : List.find? (fun co => co.id == db.nextCountryId)
      db.countries = none := by
    rw [List.find?_eq_none]
    intro x hx
    simpa using Int.ne_of_lt (hco x hx)
  simp [find, findFirstPlace, createPlaceWithCountry, List.find?_append,
    hfp, hfco, transformPlaceUnion, tagCountry]

/-- The empty store is well-formed. -/
theorem DB.empty_WF : DB.empty.WF := by
  refine ⟨?_, ?_, ?_⟩ <;> intro x hx <;> simp [DB.empty] at hx

/-- C1: on an input whose `city` relation is present and whose
`country` relation is absent, `transformPlaceUnion` returns the value
tagged `city`, whose nested `country` field is the tagged form of the
city's own mandatory country sub-record. -/
theorem transform_city_only (r : PlaceResultRec) (cw : CityInclude)
    (hc : r.city = some cw) (_hco : r.country = none) :
    transformPlaceUnion (some r) = some (Place.city (tagCity cw)) ∧
    (transformPlaceUnion (some r)).map Place.discriminator = some "city" ∧
    (tagCity cw).country = tagCountry cw.country := by
  simp [transformPlaceUnion, hc, tagCity, Place.discriminator]

/-- Witness for C1 at a concrete input. -/
theorem transform_city_only_witness :
    transformPlaceUnion (some ⟨⟨1, some 1, none⟩, none,
        some ⟨⟨1, "New York", 1⟩, ⟨1, "United States"⟩⟩⟩) =
      some (Place.city (tagCity ⟨⟨1, "New York", 1⟩, ⟨1, "United States"⟩⟩)) ∧
    (transformPlaceUnion (some ⟨⟨1, some 1, none⟩, none,
        some ⟨⟨1, "New York", 1⟩, ⟨1, "United States"⟩⟩⟩)).map
      Place.discriminator = some "city" ∧
    (tagCity ⟨⟨1, "New York", 1⟩, ⟨1, "United States"⟩⟩).country =
      tagCountry ⟨1, "United States"⟩ :=
  transform_city_only _ _ rfl rfl

/-- C2: on an input whose `country` relation is present and whose
`city` relation is absent, `transformPlaceUnion` returns the value
tagged `country` carrying exactly the country's attributes; the tagged
country type has no nested owner field. -/
theorem transform_country_only (r : PlaceResultRec) (c : Prisma.Country)
    (hc : r.city = none) (hco : r.country = some c) :
    transformPlaceUnion (some r) = some (Place.country (tagCountry c)) ∧
    (transformPlaceUnion (some r)).map Place.discriminator = some "country" ∧
    tagCountry c = { id := c.id, name := c.name } := by
  simp [transformPlaceUnion, hc, hco, tagCountry, Place.discriminator]

/-- Witness for C2 at a concrete input. -/
theorem transform_country_only_witness :
    transformPlaceUnion (some ⟨⟨3, none, some 2⟩, some ⟨2, "France"⟩, none⟩) =
      some (Place.country (tagCountry ⟨2, "France"⟩)) ∧
    (transformPlaceUnion (some ⟨⟨3, none, some 2⟩, some ⟨2, "France"⟩,
        none⟩)).map Place.discriminator = some "country" ∧
    tagCountry ⟨2, "France"⟩ = { id := 2, name := "France" } :=
  transform_country_only _ _ rfl rfl

/-- C3: on an input with both relations present, `transformPlaceUnion`
returns the city-tagged value built from the `city` relation alone;
the `country` relation contributes nothing (blanking it leaves the
output unchanged), so the output never exposes both relations. -/
theorem transform_both (r : PlaceResultRec) (cw : CityInclude)
    (c : Prisma.Country) (hc : r.city = some cw) (_hco : r.country = some c) :
    transformPlaceUnion (some r) = some (Place.city (tagCity cw)) ∧
    transformPlaceUnion (some { r with country := none }) =
      transformPlaceUnion (some r) := by
  constructor
  · simp [transformPlaceUnion, hc]
  · simp [transformPlaceUnion, hc]

/-- Witness for C3 at a concrete input. -/
theorem transform_both_witness :
    transformPlaceUnion (some ⟨⟨9, some 4, some 2⟩, some ⟨2, "France"⟩,
        some ⟨⟨4, "Berlin", 7⟩, ⟨7, "Germany"⟩⟩⟩) =
      some (Place.city (tagCity ⟨⟨4, "Berlin", 7⟩, ⟨7, "Germany"⟩⟩)) ∧
    transformPlaceUnion (some { (⟨⟨9, some 4, some 2⟩, some ⟨2, "France"⟩,
        some ⟨⟨4, "Berlin", 7⟩, ⟨7, "Germany"⟩⟩⟩ : PlaceResultRec) with
        country := none }) =
      transformPlaceUnion (some ⟨⟨9, some 4, some 2⟩, some ⟨2, "France"⟩,
        some ⟨⟨4, "Berlin", 7⟩, ⟨7, "Germany"⟩⟩⟩) :=
  transform_both _ _ _ rfl rfl

/-- C4: `transformPlaceUnion` returns `none` exactly when its input is
`none` or has neither relation present; and a lookup of an identifier
matching no stored place yields `none` through the return type. -/
theorem transform_none_iff :
    (∀ r : PlaceResult, transformPlaceUnion r = none ↔
      r = none ∨ ∃ pr, r = some pr ∧ pr.city = none ∧ pr.country = none) ∧
    ∀ (db : DB) (id : Int), (∀ p ∈ db.places, p.id ≠ id) → find db id = none := by
  constructor
  · intro r
    match r with
    | none => simp [transformPlaceUnion]
    | some pr =>
      cases hc : pr.city with
      | some cw => simp [transformPlaceUnion, hc]
      | none =>
        cases hco : pr.country with
        | some c => simp [transformPlaceUnion, hc, hco]
        | none => simp [transformPlaceUnion, hc, hco]
  · intro db id h
    have hn : List.find? (fun p => p.id == id) db.places = none := by
      rw [List.find?_eq_none]
      intro x hx
      simpa using h x hx
    simp [find, findFirstPlace, hn, transformPlaceUnion]

/-- Witness for C4: a lookup in the empty store yields `none`. -/
theorem transform_none_iff_witness : find DB.empty 1 = none :=
  transform_none_iff.2 DB.empty 1 (fun p hp => by simp [DB.empty] at hp)

/-- C5: `schema.prisma` declares `City.countryId` mandatory
(non-optional), yet the migration leaves the column nullable and its
foreign key `ON DELETE SET NULL`, so deleting a country sets the
referencing cities' `countryId` absent. -/
theorem city_countryId_required_yet_set_null (s : Sql.State) (cid : Int) :
    schemaCityCountryIdOptional = false ∧
    migrationCityCountryIdNullable = true ∧
    ∀ c ∈ s.cities, c.countryId = some cid →
      { c with countryId := none } ∈ (Sql.deleteCountry s cid).cities := by
  refine ⟨rfl, rfl, ?_⟩
  intro c hc hcid
  have hmem := List.mem_map_of_mem (fun c : Sql.CityRow =>
    if c.countryId == some cid then { c with countryId := none } else c) hc
  simpa [Sql.deleteCountry, hcid] using hmem

/-- Witness for C5 at a concrete store. -/
theorem city_countryId_required_yet_set_null_witness :
    ({ id := 1, name := "Berlin", countryId := none } : Sql.CityRow) ∈
      (Sql.deleteCountry ⟨[⟨5, "Germany"⟩], [⟨1, "Berlin", some 5⟩], []⟩ 5).cities :=
  (city_countryId_required_yet_set_null
      ⟨[⟨5, "Germany"⟩], [⟨1, "Berlin", some 5⟩], []⟩ 5).2.2
    ⟨1, "Berlin", some 5⟩ (List.mem_singleton.mpr rfl) rfl

/-- C6: after creating country "United States", city "New York" under
it, and a place referencing that city, looking the place up by its
identifier returns the tagged value
`{ type: city, name: New York, country: { type: country,
name: United States } }`. -/
theorem scenarioA :
    find (createPlaceWithCity DB.empty "New York" "United States").1
        (createPlaceWithCity DB.empty "New York" "United States").2 =
      some (Place.city ⟨1, "New York", 1, ⟨1, "United States"⟩⟩) := by
  rfl

/-- C7: a place created by either creation path, looked up by the id
returned at creation, reconstructs to a tagged union whose
discriminator matches the variant used at creation time. -/
theorem roundTrip (db : DB) (hwf : db.WF) (cn con : String) :
    (find (createPlaceWithCity db cn con).1
        (createPlaceWithCity db cn con).2).map Place.discriminator =
      some "city" ∧
    (find (createPlaceWithCountry db con).1
        (createPlaceWithCountry db con).2).map Place.discriminator =
      some "country" := by
  constructor
  · rw [find_createPlaceWithCity db hwf cn con]; rfl
  · rw [find_createPlaceWithCountry db hwf con]; rfl

/-- Witness for C7 on the empty store. -/
theorem roundTrip_witness :
    (find (createPlaceWithCity DB.empty "Berlin" "Germany").1
        (createPlaceWithCity DB.empty "Berlin" "Germany").2).map
      Place.discriminator = some "city" ∧
    (find (createPlaceWithCountry DB.empty "Germany").1
        (createPlaceWithCountry DB.empty "Germany").2).map
      Place.discriminator = some "country" :=
  roundTrip DB.empty DB.empty_WF "Berlin" "Germany"

/-- C8: `transformPlaceUnion` is a pure function of its input: two
invocations on the same raw input yield structurally identical
output. -/
theorem transform_deterministic (r : PlaceResult) :
    transformPlaceUnion r = transformPlaceUnion r := rfl

/-- C9: `transformPlaceUnion` is total and raises nothing: every input,
including ones violating the exactly-one-relation invariant, falls into
one of the four case-analysis branches, each producing a tagged value
or an absent result. -/
theorem transform_total (r : PlaceResult) :
    (r = none ∧ transformPlaceUnion r = none) ∨
    (∃ pr cw, r = some pr ∧ pr.city = some cw ∧
      transformPlaceUnion r = some (Place.city (tagCity cw))) ∨
    (∃ pr c, r = some pr ∧ pr.city = none ∧ pr.country = some c ∧
      transformPlaceUnion r = some (Place.country (tagCountry c))) ∨
    (∃ pr, r = some pr ∧ pr.city = none ∧ pr.country = none ∧
      transformPlaceUnion r = none) := by
  match r with
  | none => exact Or.inl ⟨rfl, rfl⟩
  | some pr =>
    cases hc : pr.city with
    | some cw =>
      exact Or.inr (Or.inl ⟨pr, cw, rfl, hc, by simp [transformPlaceUnion, hc]⟩)
    | none =>
      cases hco : pr.country with
      | some c =>
        exact Or.inr (Or.inr (Or.inl ⟨pr, c, rfl, hc, hco,
          by simp [transformPlaceUnion, hc, hco]⟩))
      | none =>
        exact Or.inr (Or.inr (Or.inr ⟨pr, rfl, hc, hco,
          by simp [transformPlaceUnion, hc, hco]⟩))

/-- C10: the reconstruction preserves every scalar field of the chosen
relation unchanged: in the city branch the raw city's `id`, `name` and
`countryId` (and the nested country's fields) pass through unmodified;
in the country branch the raw country's `id` and `name` pass through
unmodified. -/
theorem transform_frame :
    (∀ (r : PlaceResultRec) (cw : CityInclude), r.city = some cw →
      ∃ tc, transformPlaceUnion (some r) = some (Place.city tc) ∧
        tc.id = cw.id ∧ tc.name = cw.name ∧ tc.countryId = cw.countryId ∧
        tc.country.id = cw.country.id ∧ tc.country.name = cw.country.name) ∧
    (∀ (r : PlaceResultRec) (c : Prisma.Country), r.city = none →
      r.country = some c →
      ∃ tc, transformPlaceUnion (some r) = some (Place.country tc) ∧
        tc.id = c.id ∧ tc.name = c.name) := by
  constructor
  · intro r cw hc
    exact ⟨tagCity cw, by simp [transformPlaceUnion, hc], rfl, rfl, rfl, rfl, rfl⟩
  · intro r c hc hco
    exact ⟨tagCountry c, by simp [transformPlaceUnion, hc, hco], rfl, rfl⟩

/-- Witness for C10 at concrete inputs for both branches. -/
theorem transform_frame_witness :
    (∃ tc, transformPlaceUnion (some ⟨⟨2, some 8, none⟩, none,
        some ⟨⟨8, "Paris", 3⟩, ⟨3, "France"⟩⟩⟩) = some (Place.city tc) ∧
      tc.id = 8 ∧ tc.name = "Paris" ∧ tc.countryId = 3 ∧
      tc.country.id = 3 ∧ tc.country.name = "France") ∧
    (∃ tc, transformPlaceUnion (some ⟨⟨2, none, some 3⟩, some ⟨3, "France"⟩,
        none⟩) = some (Place.country tc) ∧
      tc.id = 3 ∧ tc.name = "France") :=
  ⟨transform_frame.1 ⟨⟨2, some 8, none⟩, none,
      some ⟨⟨8, "Paris", 3⟩, ⟨3, "France"⟩⟩⟩
    ⟨⟨8, "Paris", 3⟩, ⟨3, "France"⟩⟩ rfl,
   transform_frame.2 ⟨⟨2, none, some 3⟩, some ⟨3, "France"⟩, none⟩
    ⟨3, "France"⟩ rfl rfl⟩
